import Mathlib

/-
  Verification of the imgui-react-runtime embedding layer.

  The definitions below are a shallow embedding of the C++ sources in
  src/lib/imgui-runtime (imgui-runtime.cpp, MappedFileBuffer.cpp).
  Machine integers are modelled as Nat/Int, JS doubles as an inductive
  classification over the rationals, and fallible native/VM calls as
  Except values. Each claim theorem is stated over these definitions.
-/

set_option autoImplicit false

namespace Imgui

/-! ## MappedFileBuffer (MappedFileBuffer.cpp)

The constructor of MappedFileBuffer computes three sizes from the
file size and the platform page size:
  fileSize_   = st.st_size
  mappedSize_ = ((fileSize_ + pageSize - 1) / pageSize) * pageSize
  size_       = fileSize_ + 1 when attemptTrailingZero and
                fileSize_ % pageSize != 0, else fileSize_
-/

structure MappedFileBuffer where
  fileSize_ : ℕ
  mappedSize_ : ℕ
  size_ : ℕ

/-- Embedding of the MappedFileBuffer constructor size computations
(MappedFileBuffer.cpp lines 32-45). The open/stat/mmap failure paths
carry no size information and are omitted here. -/
def mapFileBuffer (fileSize pageSize : ℕ) (attemptTrailingZero : Bool) :
    MappedFileBuffer :=
  { fileSize_ := fileSize
    mappedSize_ := (fileSize + pageSize - 1) / pageSize * pageSize
    size_ :=
      if attemptTrailingZero = true ∧ fileSize % pageSize ≠ 0 then fileSize + 1
      else fileSize }

/-- Key arithmetic fact about the rounded-up mapping size: it is at least
the file size and less than the file size plus one page. -/
theorem mappedSize_bounds (f p : ℕ) (hp : 0 < p) :
    f ≤ (f + p - 1) / p * p ∧ (f + p - 1) / p * p < f + p := by
  have e : p * ((f + p - 1) / p) + (f + p - 1) % p = f + p - 1 :=
    Nat.div_add_mod (f + p - 1) p
  have hr : (f + p - 1) % p < p := Nat.mod_lt _ hp
  rw [Nat.mul_comm] at e
  generalize (f + p - 1) / p * p = M at e ⊢
  generalize (f + p - 1) % p = r at e hr
  omega

/-- The Nat rounding expression used by the code computes the ceiling of
the rational division. -/
theorem ceil_div_eq_nat_round (f p : ℕ) (hp : 0 < p) :
    ⌈(f : ℚ) / (p : ℚ)⌉ = ((f + p - 1) / p : ℕ) := by
  obtain ⟨h1, h2⟩ := mappedSize_bounds f p hp
  have hp' : (0 : ℚ) < (p : ℚ) := by exact_mod_cast hp
  have hQ1 : (f : ℚ) ≤ ((f + p - 1) / p : ℕ) * (p : ℚ) := by exact_mod_cast h1
  have hQ2 : (((f + p - 1) / p : ℕ) : ℚ) * (p : ℚ) < (f : ℚ) + (p : ℚ) := by
    exact_mod_cast h2
  rw [Int.ceil_eq_iff]
  constructor
  · rw [lt_div_iff₀ hp', Int.cast_natCast]
    nlinarith
  · rw [div_le_iff₀ hp', Int.cast_natCast]
    nlinarith

/-- C2: for every file size f and positive page size p, the mmap length is
ceil(f/p)*p which is at least f, and the reported logical size is f+1 iff a
trailing zero was requested and f is not a multiple of p; in every other
case (including no trailing-zero request) the logical size is f. -/
theorem C2_mapped_file_sizing (f p : ℕ) (z : Bool) (hp : 0 < p) :
    ((mapFileBuffer f p z).mappedSize_ : ℤ) = ⌈(f : ℚ) / (p : ℚ)⌉ * (p : ℤ) ∧
    f ≤ (mapFileBuffer f p z).mappedSize_ ∧
    ((mapFileBuffer f p true).size_ = f + 1 ↔ f % p ≠ 0) ∧
    (mapFileBuffer f p false).size_ = f ∧
    (f % p = 0 → (mapFileBuffer f p z).size_ = f) := by
  obtain ⟨h1, _⟩ := mappedSize_bounds f p hp
  refine ⟨?_, ?_, ?_, ?_, ?_⟩
  · rw [ceil_div_eq_nat_round f p hp]
    simp [mapFileBuffer]
  · exact h1
  · by_cases hm : f % p = 0
    · simp [mapFileBuffer, hm]
    · simp [mapFileBuffer, hm]
  · simp [mapFileBuffer]
  · intro hm
    simp [mapFileBuffer, hm]

/-- Witness for C2 at f = 5, p = 4096, trailing zero requested. -/
theorem C2_mapped_file_sizing_witness :
    0 < 4096 ∧
    (((mapFileBuffer 5 4096 true).mappedSize_ : ℤ) =
        ⌈(5 : ℚ) / (4096 : ℚ)⌉ * (4096 : ℤ) ∧
      5 ≤ (mapFileBuffer 5 4096 true).mappedSize_ ∧
      ((mapFileBuffer 5 4096 true).size_ = 5 + 1 ↔ 5 % 4096 ≠ 0) ∧
      (mapFileBuffer 5 4096 false).size_ = 5 ∧
      (5 % 4096 = 0 → (mapFileBuffer 5 4096 true).size_ = 5)) :=
  ⟨by decide, C2_mapped_file_sizing 5 4096 true (by decide)⟩

/-- C6 counterexample: mapping a zero-length file with page size 4096
yields mappedSize_ = 0, not 4096, refuting the claim that the aligned
size of an empty file is one page. -/
theorem C6_counterexample :
    (mapFileBuffer 0 4096 true).mappedSize_ = 0 ∧
    (mapFileBuffer 0 4096 true).mappedSize_ ≠ 4096 := by
  constructor <;> decide

/-- C6 amended: mapping a zero-length file yields alignedSize = 0 (the
expression ((0 + p - 1) / p) * p truncates to zero), and with a trailing
zero requested the reported logical size is 0, not 1, because
0 mod p = 0 means no terminator byte is added. -/
theorem C6_zero_length_file (p : ℕ) (z : Bool) (hp : 0 < p) :
    (mapFileBuffer 0 p z).mappedSize_ = 0 ∧
    (mapFileBuffer 0 p true).size_ = 0 := by
  constructor
  · have hlt : p - 1 < p := by omega
    simp [mapFileBuffer, Nat.div_eq_of_lt hlt]
  · simp [mapFileBuffer]

/-- Witness for the amended C6 at p = 4096. -/
theorem C6_zero_length_file_witness :
    0 < 4096 ∧
    ((mapFileBuffer 0 4096 true).mappedSize_ = 0 ∧
      (mapFileBuffer 0 4096 true).size_ = 0) :=
  ⟨by decide, C6_zero_length_file 4096 true (by decide)⟩

/-! ## The jslib cooperative task queue and the per-tick drain loop

The drain loop itself is embedded from app_frame (imgui-runtime.cpp
lines 268-285):

  while ((nextTimeMs = peekMacroTask.call(...).getNumber()) >= 0 &&
         nextTimeMs <= curTimeMs) {
    runMacroTask.call(..., curTimeMs);
    hermes->drainMicrotasks();
  }

followed by the on_frame call. peek and run are functions exported by the
jslib JS unit, which is not part of the C++ sources.
-/

/-- Modelled from the spec: a jslib macrotask. The jslib unit that
implements the queue is not in src/; the spec describes a queue of work
items with nonnegative due times where a running task may schedule
further tasks. The tasks a run spawns are listed in the task itself. -/
inductive QTask where
  | mk (due : ℕ) (spawn : List QTask)

def QTask.due : QTask → ℕ
  | .mk d _ => d

def QTask.spawn : QTask → List QTask
  | .mk _ s => s

/-- Modelled from the spec: remove a task with the least due time from the
queue, returning it and the rest of the queue; none when empty. -/
def popMin : List QTask → Option (QTask × List QTask)
  | [] => none
  | t :: ts =>
    match popMin ts with
    | none => some (t, ts)
    | some (u, rest) =>
      if t.due ≤ u.due then some (t, ts) else some (u, t :: rest)

/-- Modelled from the spec: the jslib peek function returns the due time
of the next (earliest-due) macrotask, or a negative sentinel when the
queue is empty. -/
def peekMacroTask (q : List QTask) : ℤ :=
  match popMin q with
  | none => -1
  | some (t, _) => (t.due : ℤ)

/-- Modelled from the spec: the jslib run function executes the next due
macrotask; the tasks it schedules while running join the queue. Returns
the new queue and the task that ran, if any. -/
def runMacroTask (q : List QTask) : List QTask × Option QTask :=
  match popMin q with
  | none => (q, none)
  | some (t, rest) => (rest ++ t.spawn, some t)

/-- Embedding of the app_frame macrotask drain loop (imgui-runtime.cpp
lines 270-276), instrumented to record the tasks that ran. Returns the
remaining queue, the tasks that ran in order, and whether the loop exited
through its own condition (true) or through fuel exhaustion (false). The
C++ loop has no iteration bound; the fuel only makes the model total. -/
def drainMacroTasks : ℕ → List QTask → ℕ → List QTask × List QTask × Bool
  | 0, q, _ => (q, [], false)
  | fuel + 1, q, curTimeMs =>
    let nextTimeMs := peekMacroTask q
    if 0 ≤ nextTimeMs ∧ nextTimeMs ≤ (curTimeMs : ℤ) then
      match runMacroTask q with
      | (q2, some t) =>
        let r := drainMacroTasks fuel q2 curTimeMs
        (r.1, t :: r.2.1, r.2.2)
      | (q2, none) => (q2, [], true)
    else (q, [], true)

/-- Events visible in one app_frame tick, in order: the macrotask runs of
the drain loop, then the on_frame call (imgui-runtime.cpp line 279). -/
inductive TickEvent where
  | ranMacroTask (due : ℕ)
  | calledOnFrame
deriving DecidableEq

/-- The event order of one app_frame tick: the drain loop runs to
completion before the on_frame callback is invoked. -/
def appFrameTickTrace (fuel : ℕ) (q : List QTask) (curTimeMs : ℕ) :
    List TickEvent :=
  ((drainMacroTasks fuel q curTimeMs).2.1.map
      (fun t => TickEvent.ranMacroTask t.due)) ++ [TickEvent.calledOnFrame]

theorem popMin_isSome_of_peek_nonneg (q : List QTask)
    (h : 0 ≤ peekMacroTask q) : ∃ t rest, popMin q = some (t, rest) := by
  unfold peekMacroTask at h
  cases hq : popMin q with
  | none =>
    rw [hq] at h
    exact absurd h (by decide)
  | some p => exact ⟨p.1, p.2, rfl⟩

theorem peek_eq_due (q : List QTask) (t : QTask) (rest : List QTask)
    (h : popMin q = some (t, rest)) : peekMacroTask q = (t.due : ℤ) := by
  unfold peekMacroTask
  rw [h]

/-- C1: in every app_frame tick the drain loop runs only macrotasks whose
due time is at or before curTimeMs; whenever the loop exits through its
own condition, the remaining queue has no due task (peek is negative or
strictly in the future), so every task due at or before curTimeMs --
including tasks scheduled during the same drain whose due time is already
past -- has run; and in the tick event order every macrotask run happens
before the on_frame invocation. -/
theorem C1_macrotask_drain (fuel : ℕ) (q : List QTask) (curTimeMs : ℕ) :
    (∀ t ∈ (drainMacroTasks fuel q curTimeMs).2.1, t.due ≤ curTimeMs) ∧
    ((drainMacroTasks fuel q curTimeMs).2.2 = true →
      peekMacroTask (drainMacroTasks fuel q curTimeMs).1 < 0 ∨
        (curTimeMs : ℤ) < peekMacroTask (drainMacroTasks fuel q curTimeMs).1) ∧
    ((appFrameTickTrace fuel q curTimeMs).getLast? =
        some TickEvent.calledOnFrame ∧
      ∀ e ∈ (appFrameTickTrace fuel q curTimeMs).dropLast,
        ∃ d ≤ curTimeMs, e = TickEvent.ranMacroTask d) := by
  induction fuel generalizing q with
  | zero =>
    refine ⟨by simp [drainMacroTasks], by simp [drainMacroTasks], ?_, ?_⟩
    · simp [appFrameTickTrace, drainMacroTasks]
    · simp [appFrameTickTrace, drainMacroTasks]
  | succ fuel ih =>
    by_cases hc : 0 ≤ peekMacroTask q ∧ peekMacroTask q ≤ (curTimeMs : ℤ)
    · obtain ⟨t, rest, hpop⟩ := popMin_isSome_of_peek_nonneg q hc.1
      have hdue : (t.due : ℤ) ≤ (curTimeMs : ℤ) := by
        rw [← peek_eq_due q t rest hpop]; exact hc.2
      have hdueN : t.due ≤ curTimeMs := by exact_mod_cast hdue
      have hrun : runMacroTask q = (rest ++ t.spawn, some t) := by
        unfold runMacroTask; rw [hpop]
      have hstep :
          drainMacroTasks (fuel + 1) q curTimeMs =
            ((drainMacroTasks fuel (rest ++ t.spawn) curTimeMs).1,
              t :: (drainMacroTasks fuel (rest ++ t.spawn) curTimeMs).2.1,
              (drainMacroTasks fuel (rest ++ t.spawn) curTimeMs).2.2) := by
        simp only [drainMacroTasks]
        rw [if_pos hc, hrun]
      obtain ⟨ih1, ih2, ih3, ih4⟩ := ih (rest ++ t.spawn)
      refine ⟨?_, ?_, ?_, ?_⟩
      · rw [hstep]
        intro u hu
        rcases List.mem_cons.mp hu with h | h
        · rw [h]; exact hdueN
        · exact ih1 u h
      · rw [hstep]
        exact ih2
      · simp [appFrameTickTrace]
      · intro e he
        simp only [appFrameTickTrace, hstep] at he
        rw [show ∀ l : List TickEvent,
            (l ++ [TickEvent.calledOnFrame]).dropLast = l from
            fun l => by simp] at he
        rcases List.mem_map.mp he with ⟨u, hu, heq⟩
        rcases List.mem_cons.mp hu with h | h
        · exact ⟨t.due, hdueN, by rw [← heq, h]⟩
        · exact ⟨u.due, ih1 u h, heq.symm⟩
    · have hstep :
          drainMacroTasks (fuel + 1) q curTimeMs = (q, [], true) := by
        unfold drainMacroTasks
        rw [if_neg hc]
      refine ⟨?_, ?_, ?_, ?_⟩
      · rw [hstep]; simp
      · rw [hstep]
        intro _
        simp only
        omega
      · simp [appFrameTickTrace]
      · rw [appFrameTickTrace, hstep]
        simp

/-- A task due at time 0 that reschedules a successor for time 5. -/
def rescheduleScenarioTask : QTask := QTask.mk 0 [QTask.mk 5 []]

/-- Witness for C1: with current frame time 10 and a task due at 0 that
reschedules itself for 5, both runs happen within one drain, every run was
due, the loop completes with no due task left, and all runs precede the
on_frame call. -/
theorem C1_macrotask_drain_witness :
    (∀ t ∈ (drainMacroTasks 3 [rescheduleScenarioTask] 10).2.1,
        t.due ≤ 10) ∧
    (peekMacroTask (drainMacroTasks 3 [rescheduleScenarioTask] 10).1 < 0 ∨
      (10 : ℤ) <
        peekMacroTask (drainMacroTasks 3 [rescheduleScenarioTask] 10).1) ∧
    (drainMacroTasks 3 [rescheduleScenarioTask] 10).2.1.map QTask.due =
      [0, 5] ∧
    (appFrameTickTrace 3 [rescheduleScenarioTask] 10).getLast? =
      some TickEvent.calledOnFrame := by
  refine ⟨(C1_macrotask_drain 3 [rescheduleScenarioTask] 10).1,
    (C1_macrotask_drain 3 [rescheduleScenarioTask] 10).2.1 (by decide),
    by decide,
    (C1_macrotask_drain 3 [rescheduleScenarioTask] 10).2.2.1⟩

/-! ## Steady-state error boundaries (app_event, update_performance_metrics,
app_frame; imgui-runtime.cpp lines 179-199, 204-230, 232-311)

VM entry points can raise JSI exceptions; each call into the VM is
modelled as an Except value supplied by the environment. The embeddings
below mirror the try/catch structure of the native callbacks.
-/

structure JSError where
  message : String
deriving DecidableEq

/-- Result of the app_event native callback: whether the reserved quit
gesture fired, which log lines the catch handler emitted, and whether
control returned normally to the event loop. -/
structure EventOutcome where
  requestedQuit : Bool
  logs : List String
  proceeded : Bool
deriving DecidableEq

/-- Embedding of app_event (imgui-runtime.cpp lines 179-199): the quit
gesture short-circuits; otherwise the on_event VM call runs inside a
try/catch that logs a JSIException and falls through to the GUI adapter. -/
def app_event (isQuitGesture : Bool) (on_event_call : Except JSError Unit) :
    EventOutcome :=
  if isQuitGesture then { requestedQuit := true, logs := [], proceeded := true }
  else
    match on_event_call with
    | .ok _ => { requestedQuit := false, logs := [], proceeded := true }
    | .error e =>
      { requestedQuit := false, logs := [e.message], proceeded := true }

/-- The optional numeric fields the host reads from the perfMetrics VM
object. -/
structure PerfMetricsJS where
  reconciliationAvg : Option ℚ
  reconciliationMax : Option ℚ
  renderTime : Option ℚ

/-- The accumulated native metric state (s_react_avg_ms, s_react_max_ms,
s_imgui_avg_ms). -/
structure PerfState where
  react_avg_ms : ℚ
  react_max_ms : ℚ
  imgui_avg_ms : ℚ
deriving DecidableEq

/-- Embedding of update_performance_metrics (imgui-runtime.cpp lines
204-230). Reading the perfMetrics object either yields its optional
fields or throws; the catch-all handler swallows the error and emits no
log line. The renderTime field feeds an exponential moving average with
alpha = 0.1. Returns the new state and the emitted log lines. -/
def update_performance_metrics (s : PerfState)
    (metricsRead : Except JSError (Option PerfMetricsJS)) :
    PerfState × List String :=
  match metricsRead with
  | .error _ => (s, [])
  | .ok none => (s, [])
  | .ok (some m) =>
    let s1 := match m.reconciliationAvg with
      | some v => { s with react_avg_ms := v }
      | none => s
    let s2 := match m.reconciliationMax with
      | some v => { s1 with react_max_ms := v }
      | none => s1
    let s3 := match m.renderTime with
      | some v =>
        { s2 with imgui_avg_ms := s2.imgui_avg_ms * (1 - 1/10) + v * (1/10) }
      | none => s2
    (s3, [])

/-- Result of one app_frame tick: log lines, whether the frame was
rendered and committed, and the metric state after the tick. -/
structure FrameOutcome where
  logs : List String
  renderedFrame : Bool
  perf : PerfState
deriving DecidableEq

/-- Embedding of the error-handling skeleton of app_frame
(imgui-runtime.cpp lines 268-311): the macrotask drain and the on_frame
call run inside one try/catch whose handler logs the exception; then
update_performance_metrics runs, and rendering (simgui_render through
sg_commit) happens unconditionally afterwards. -/
def app_frame_boundary (frameWork : Except JSError Unit) (s : PerfState)
    (metricsRead : Except JSError (Option PerfMetricsJS)) : FrameOutcome :=
  let logs1 : List String :=
    match frameWork with
    | .ok _ => []
    | .error e => [e.message]
  let pm := update_performance_metrics s metricsRead
  { logs := logs1 ++ pm.2, renderedFrame := true, perf := pm.1 }

/-- A run of consecutive app_frame ticks; each entry says whether that
tick rendered. -/
def runSession (frames : List (Except JSError Unit)) (s : PerfState) :
    List Bool :=
  match frames with
  | [] => []
  | w :: rest =>
    (app_frame_boundary w s (.ok none)).renderedFrame ::
      runSession rest (app_frame_boundary w s (.ok none)).perf

theorem runSession_all_rendered (frames : List (Except JSError Unit))
    (s : PerfState) :
    runSession frames s = List.replicate frames.length true := by
  induction frames generalizing s with
  | nil => rfl
  | cons w rest ih =>
    simp [runSession, app_frame_boundary, ih, List.replicate]

/-- C3 counterexample: a VM exception raised while reading the
perfMetrics object is caught by the catch-all handler and silently
dropped; no log line is emitted, refuting the claim that every
steady-state script error is logged. -/
theorem C3_counterexample :
    (update_performance_metrics ⟨0, 0, 0⟩
        (.error ⟨"perfMetrics threw"⟩)).2 = [] ∧
    (update_performance_metrics ⟨0, 0, 0⟩
        (.error ⟨"perfMetrics threw"⟩)).1 = ⟨0, 0, 0⟩ := by
  constructor <;> rfl

/-- C3 amended: every script error raised during the steady-state
per-tick entry points is caught at the native boundary and the tick
proceeds -- errors from on_event and from the frame work (macrotask
drain and on_frame) are logged, while errors from reading perfMetrics
are silently ignored without a log line -- and no such error aborts the
process or prevents subsequent frames: every queued frame still renders. -/
theorem C3_steady_state_errors (e : JSError) (gesture : Bool)
    (r : Except JSError Unit) (s : PerfState)
    (m : Except JSError (Option PerfMetricsJS))
    (frames : List (Except JSError Unit)) :
    (app_event gesture r).proceeded = true ∧
    (app_event false (.error e)).logs = [e.message] ∧
    (app_frame_boundary r s m).renderedFrame = true ∧
    (app_frame_boundary (.error e) s m).logs =
      e.message :: (update_performance_metrics s m).2 ∧
    (update_performance_metrics s (.error e)).1 = s ∧
    (update_performance_metrics s (.error e)).2 = [] ∧
    runSession frames s = List.replicate frames.length true := by
  refine ⟨?_, ?_, ?_, ?_, ?_, ?_, runSession_all_rendered frames s⟩
  · cases gesture with
    | true => rfl
    | false => cases r <;> rfl
  · rfl
  · rfl
  · rfl
  · rfl
  · rfl

/-! ## Bootstrap (sokol_main, app_init; imgui-runtime.cpp lines 144-167,
405-489)

sokol_main evaluates the jslib unit, resolves the peek/run task-queue
functions, calls run once to seed the current time, installs
performance.now and the default sappConfig, loads the application unit
(imgui_main), evaluates the imgui unit, projects the window config and
returns the sapp_desc. Any exception reaches the catch clauses at the
bottom, which print a diagnostic and exit(1). app_init calls on_init and
aborts on any JSIException.
-/

/-- Classification of a VM value; JS numbers are modelled by their IEEE
class (non-finite cases) plus an exact rational for finite doubles. -/
inductive JSNum where
  | nan
  | posInf
  | negInf
  | finite (q : ℚ)
deriving DecidableEq

inductive JSValue where
  | undefined
  | boolean (b : Bool)
  | number (v : JSNum)
  | string (s : String)
  | object
  | function (id : ℕ)
deriving DecidableEq

def JSValue.isCallable : JSValue → Bool
  | .function _ => true
  | _ => false

/-- Embedding of jsi getPropertyAsFunction on an already-fetched value:
it returns the function or throws a native exception when the value is
not callable. -/
def getPropertyAsFunction (v : JSValue) (name : String) :
    Except JSError ℕ :=
  match v with
  | .function id => .ok id
  | _ => .error ⟨String.append name " is not a function"⟩

/-- The object returned by evaluating the jslib unit, expected to carry
the peek and run task-queue functions. -/
structure JslibHelpers where
  peek : JSValue
  run : JSValue
deriving DecidableEq

/-- The fallible steps of sokol_main, supplied by the environment: the
jslib unit evaluation result, the seeding run call, the application unit
load performed by imgui_main, and the imgui unit evaluation. -/
structure BootstrapEnv where
  evalJslibUnit : Except JSError JslibHelpers
  seedRunCall : Except JSError Unit
  imguiMainLoad : Except JSError Unit
  evalImguiUnit : Except JSError Unit

/-- Observable bootstrap events, in program order. The model clock is the
sokol time source, whose base is set by stm_setup at the top of
sokol_main; no model time passes during bootstrap, so the seeding run
call carries time 0. -/
inductive BootEvent where
  | evaluatedJslib
  | resolvedTaskFunctions
  | calledRunMacroTask (timeMs : ℕ)
  | installedPerformanceNow
  | seededSappConfig
  | loadedAppUnit
  | evaluatedImguiUnit
  | populatedConfig
  | returnedDescForWindow
  | exitedProcess
deriving DecidableEq

inductive BootResult where
  | frameLoop (peekFn runFn : ℕ)
  | exitedWithMessage (msg : String)
deriving DecidableEq

/-- The event order of a fully successful bootstrap (imgui-runtime.cpp
lines 417-476): jslib, peek/run resolution, the seeding run call at time
zero, performance.now installation, default sappConfig, imgui_main
application-unit load, imgui unit, config projection, and only then the
sapp_desc return that creates the window. -/
def successBootTrace : List BootEvent :=
  [.evaluatedJslib, .resolvedTaskFunctions, .calledRunMacroTask 0,
   .installedPerformanceNow, .seededSappConfig, .loadedAppUnit,
   .evaluatedImguiUnit, .populatedConfig, .returnedDescForWindow]

/-- Embedding of sokol_main (imgui-runtime.cpp lines 405-489): each
fallible step either continues the bootstrap or reaches the catch
clauses, which print the diagnostic and exit(1). -/
def sokol_main (env : BootstrapEnv) : BootResult × List BootEvent :=
  match env.evalJslibUnit with
  | .error e => (.exitedWithMessage e.message, [.exitedProcess])
  | .ok helpers =>
    match getPropertyAsFunction helpers.peek "peek" with
    | .error e =>
      (.exitedWithMessage e.message, [.evaluatedJslib, .exitedProcess])
    | .ok peekFn =>
      match getPropertyAsFunction helpers.run "run" with
      | .error e =>
        (.exitedWithMessage e.message, [.evaluatedJslib, .exitedProcess])
      | .ok runFn =>
        match env.seedRunCall with
        | .error e =>
          (.exitedWithMessage e.message,
            [.evaluatedJslib, .resolvedTaskFunctions, .exitedProcess])
        | .ok _ =>
          match env.imguiMainLoad with
          | .error e =>
            (.exitedWithMessage e.message,
              [.evaluatedJslib, .resolvedTaskFunctions,
               .calledRunMacroTask 0, .installedPerformanceNow,
               .seededSappConfig, .exitedProcess])
          | .ok _ =>
            match env.evalImguiUnit with
            | .error e =>
              (.exitedWithMessage e.message,
                [.evaluatedJslib, .resolvedTaskFunctions,
                 .calledRunMacroTask 0, .installedPerformanceNow,
                 .seededSappConfig, .loadedAppUnit, .exitedProcess])
            | .ok _ => (.frameLoop peekFn runFn, successBootTrace)

/-- Outcome of app_init: either control returns to the event loop or the
process aborts. -/
inductive InitOutcome where
  | proceeded (logs : List String)
  | abortedProcess (logs : List String)
deriving DecidableEq

/-- Embedding of app_init (imgui-runtime.cpp lines 158-166): the on_init
VM call runs inside a try/catch whose handler logs the exception and
calls abort(). -/
def app_init (on_init_call : Except JSError Unit) : InitOutcome :=
  match on_init_call with
  | .ok _ => .proceeded []
  | .error e => .abortedProcess [e.message]

/-- All fallible bootstrap steps succeed, including the peek/run
functions resolving to callables. -/
def bootstrapSucceeds (env : BootstrapEnv) : Bool :=
  (match env.evalJslibUnit with
   | .ok h => h.peek.isCallable && h.run.isCallable
   | .error _ => false) &&
  (match env.seedRunCall with | .ok _ => true | .error _ => false) &&
  (match env.imguiMainLoad with | .ok _ => true | .error _ => false) &&
  (match env.evalImguiUnit with | .ok _ => true | .error _ => false)

theorem getPropertyAsFunction_ok_inv (v : JSValue) (n : String) (i : ℕ)
    (h : getPropertyAsFunction v n = .ok i) : v = .function i := by
  cases v <;> simp_all [getPropertyAsFunction]

/-- Reaching the frame loop pins down every bootstrap step: all steps
succeeded, peek and run are the resolved callables, and the emitted
events are exactly the successful-bootstrap trace. -/
theorem sokol_main_success_inv (env : BootstrapEnv) (peekFn runFn : ℕ)
    (h : (sokol_main env).1 = BootResult.frameLoop peekFn runFn) :
    (∃ helpers, env.evalJslibUnit = .ok helpers ∧
      helpers.peek = JSValue.function peekFn ∧
      helpers.run = JSValue.function runFn) ∧
    env.seedRunCall = .ok () ∧ env.imguiMainLoad = .ok () ∧
    env.evalImguiUnit = .ok () ∧ (sokol_main env).2 = successBootTrace := by
  rcases h1 : env.evalJslibUnit with e | helpers
  · have hs : sokol_main env = (.exitedWithMessage e.message,
        [.exitedProcess]) := by
      simp only [sokol_main, h1]
    rw [hs] at h; simp at h
  rcases h2 : getPropertyAsFunction helpers.peek "peek" with e | pid
  · have hs : sokol_main env = (.exitedWithMessage e.message,
        [.evaluatedJslib, .exitedProcess]) := by
      simp only [sokol_main, h1, h2]
    rw [hs] at h; simp at h
  rcases h3 : getPropertyAsFunction helpers.run "run" with e | rid
  · have hs : sokol_main env = (.exitedWithMessage e.message,
        [.evaluatedJslib, .exitedProcess]) := by
      simp only [sokol_main, h1, h2, h3]
    rw [hs] at h; simp at h
  rcases h4 : env.seedRunCall with e | u
  · have hs : sokol_main env = (.exitedWithMessage e.message,
        [.evaluatedJslib, .resolvedTaskFunctions, .exitedProcess]) := by
      simp only [sokol_main, h1, h2, h3, h4]
    rw [hs] at h; simp at h
  rcases h5 : env.imguiMainLoad with e | u
  · have hs : (sokol_main env).1 = .exitedWithMessage e.message := by
      simp only [sokol_main, h1, h2, h3, h4, h5]
    rw [hs] at h; simp at h
  rcases h6 : env.evalImguiUnit with e | u
  · have hs : (sokol_main env).1 = .exitedWithMessage e.message := by
      simp only [sokol_main, h1, h2, h3, h4, h5, h6]
    rw [hs] at h; simp at h
  have hs : sokol_main env = (.frameLoop pid rid, successBootTrace) := by
    simp only [sokol_main, h1, h2, h3, h4, h5, h6]
  rw [hs] at h
  simp at h
  obtain ⟨hpid, hrid⟩ := h
  refine ⟨⟨helpers, rfl, ?_, ?_⟩, rfl, rfl, rfl, by rw [hs]⟩
  · rw [← hpid]; exact getPropertyAsFunction_ok_inv _ _ _ h2
  · rw [← hrid]; exact getPropertyAsFunction_ok_inv _ _ _ h3

/-- Any failing bootstrap step makes sokol_main exit with a diagnostic. -/
theorem sokol_main_of_step_error (env : BootstrapEnv)
    (h : bootstrapSucceeds env = false) :
    ∃ msg, (sokol_main env).1 = BootResult.exitedWithMessage msg := by
  rcases h1 : env.evalJslibUnit with e | helpers
  · exact ⟨e.message, by simp only [sokol_main, h1]⟩
  rcases h2 : getPropertyAsFunction helpers.peek "peek" with e | pid
  · exact ⟨e.message, by simp only [sokol_main, h1, h2]⟩
  rcases h3 : getPropertyAsFunction helpers.run "run" with e | rid
  · exact ⟨e.message, by simp only [sokol_main, h1, h2, h3]⟩
  rcases h4 : env.seedRunCall with e | u
  · exact ⟨e.message, by simp only [sokol_main, h1, h2, h3, h4]⟩
  rcases h5 : env.imguiMainLoad with e | u
  · exact ⟨e.message, by simp only [sokol_main, h1, h2, h3, h4, h5]⟩
  rcases h6 : env.evalImguiUnit with e | u
  · exact ⟨e.message, by simp only [sokol_main, h1, h2, h3, h4, h5, h6]⟩
  exfalso
  have hpeek := getPropertyAsFunction_ok_inv _ _ _ h2
  have hrun := getPropertyAsFunction_ok_inv _ _ _ h3
  simp [bootstrapSucceeds, h1, h4, h5, h6, hpeek, hrun,
    JSValue.isCallable] at h

/-- C4: every error during one-time setup is unrecoverable. If any
bootstrap step fails -- including the peek/run task-queue functions not
resolving to callables -- sokol_main exits the process with a diagnostic
message; conversely, reaching the frame loop means every step succeeded;
and a script error thrown by on_init during app_init aborts the process. -/
theorem C4_setup_errors_fatal (env : BootstrapEnv) (e : JSError) :
    (bootstrapSucceeds env = false →
      ∃ msg, (sokol_main env).1 = BootResult.exitedWithMessage msg) ∧
    (∀ peekFn runFn,
      (sokol_main env).1 = BootResult.frameLoop peekFn runFn →
        bootstrapSucceeds env = true) ∧
    app_init (.error e) = InitOutcome.abortedProcess [e.message] := by
  refine ⟨sokol_main_of_step_error env, ?_, rfl⟩
  intro peekFn runFn h
  obtain ⟨⟨helpers, h1, hpeek, hrun⟩, h4, h5, h6, _⟩ :=
    sokol_main_success_inv env peekFn runFn h
  simp [bootstrapSucceeds, h1, h4, h5, h6, hpeek, hrun,
    JSValue.isCallable]

/-- A bootstrap environment whose jslib result has a non-callable peek. -/
def badPeekEnv : BootstrapEnv :=
  { evalJslibUnit := .ok { peek := .boolean true, run := .function 2 }
    seedRunCall := .ok ()
    imguiMainLoad := .ok ()
    evalImguiUnit := .ok () }

/-- Witness for C4: with a non-callable peek the process exits with a
diagnostic, and an on_init error aborts. -/
theorem C4_setup_errors_fatal_witness :
    (∃ msg, (sokol_main badPeekEnv).1 = BootResult.exitedWithMessage msg) ∧
    app_init (.error ⟨"on_init threw"⟩) =
      InitOutcome.abortedProcess ["on_init threw"] :=
  ⟨(C4_setup_errors_fatal badPeekEnv ⟨"on_init threw"⟩).1 (by decide),
    (C4_setup_errors_fatal badPeekEnv ⟨"on_init threw"⟩).2.2⟩

/-- C8: on every bootstrap that reaches the frame loop, the run
task-queue function is invoked exactly once during bootstrap, with time
zero as its argument, and that invocation happens before the application
unit is loaded and before the sapp_desc return that creates the window
and GUI. -/
theorem C8_seed_run_once (env : BootstrapEnv) (peekFn runFn : ℕ)
    (h : (sokol_main env).1 = BootResult.frameLoop peekFn runFn) :
    ((sokol_main env).2.filter
        (fun ev => match ev with
          | BootEvent.calledRunMacroTask _ => true
          | _ => false)) = [BootEvent.calledRunMacroTask 0] ∧
    (sokol_main env).2.indexOf (BootEvent.calledRunMacroTask 0) <
      (sokol_main env).2.indexOf BootEvent.loadedAppUnit ∧
    (sokol_main env).2.indexOf (BootEvent.calledRunMacroTask 0) <
      (sokol_main env).2.indexOf BootEvent.returnedDescForWindow := by
  obtain ⟨_, _, _, _, htrace⟩ := sokol_main_success_inv env peekFn runFn h
  rw [htrace]
  refine ⟨by decide, by decide, by decide⟩

/-- A bootstrap environment where every step succeeds. -/
def okBootstrapEnv : BootstrapEnv :=
  { evalJslibUnit := .ok { peek := .function 1, run := .function 2 }
    seedRunCall := .ok ()
    imguiMainLoad := .ok ()
    evalImguiUnit := .ok () }

/-- Witness for C8 on a fully successful bootstrap. -/
theorem C8_seed_run_once_witness :
    ((sokol_main okBootstrapEnv).2.filter
        (fun ev => match ev with
          | BootEvent.calledRunMacroTask _ => true
          | _ => false)) = [BootEvent.calledRunMacroTask 0] ∧
    (sokol_main okBootstrapEnv).2.indexOf (BootEvent.calledRunMacroTask 0) <
      (sokol_main okBootstrapEnv).2.indexOf BootEvent.loadedAppUnit ∧
    (sokol_main okBootstrapEnv).2.indexOf (BootEvent.calledRunMacroTask 0) <
      (sokol_main okBootstrapEnv).2.indexOf
        BootEvent.returnedDescForWindow :=
  C8_seed_run_once okBootstrapEnv 1 2 (by decide)

/-! ## Config projection (safe_double_to_int,
populate_sapp_desc_from_config; imgui-runtime.cpp lines 317-398)

globalThis.sappConfig is read field by field: numeric fields only when
the VM value is a number, via a saturating double-to-int conversion, and
boolean fields only when the VM value is a boolean; everything else
leaves the zero-initialized sapp_desc field alone. All int fields of
sapp_desc start at 0 from the zero initializer; the native int range is
the 32-bit int of the target platform, and INT_MAX/INT_MIN are exactly
representable as doubles so the comparisons in the code are exact.
-/

def INT_MAX : ℤ := 2147483647

def INT_MIN : ℤ := -2147483648

/-- Truncation toward zero: the behavior of static_cast from double to
int on an in-range value. -/
def truncToInt (q : ℚ) : ℤ := if 0 ≤ q then ⌊q⌋ else ⌈q⌉

/-- Embedding of safe_double_to_int (imgui-runtime.cpp lines 317-328). -/
def safe_double_to_int (value : JSNum) (defaultValue : ℤ) : ℤ :=
  match value with
  | .nan => defaultValue
  | .posInf => defaultValue
  | .negInf => defaultValue
  | .finite q =>
    if (INT_MAX : ℚ) < q then INT_MAX
    else if q < (INT_MIN : ℚ) then INT_MIN
    else truncToInt q

/-- The sappConfig VM object: each field may be absent or hold any VM
value. -/
structure SappConfigJS where
  title : Option JSValue := none
  width : Option JSValue := none
  height : Option JSValue := none
  sample_count : Option JSValue := none
  swap_interval : Option JSValue := none
  clipboard_size : Option JSValue := none
  max_dropped_files : Option JSValue := none
  max_dropped_file_path_length : Option JSValue := none
  fullscreen : Option JSValue := none
  high_dpi : Option JSValue := none
  alpha : Option JSValue := none
  enable_clipboard : Option JSValue := none
  enable_dragndrop : Option JSValue := none

/-- The projected native sapp_desc fields populated from sappConfig. -/
structure SappDesc where
  window_title : String
  width : ℤ
  height : ℤ
  sample_count : ℤ
  swap_interval : ℤ
  clipboard_size : ℤ
  max_dropped_files : ℤ
  max_dropped_file_path_length : ℤ
  fullscreen : Bool
  high_dpi : Bool
  alpha : Bool
  enable_clipboard : Bool
  enable_dragndrop : Bool

/-- The zero-initialized sapp_desc with the default window title
(imgui-runtime.cpp lines 332-342). -/
def defaultSappDesc : SappDesc :=
  { window_title := "imgui-react-runtime"
    width := 0
    height := 0
    sample_count := 0
    swap_interval := 0
    clipboard_size := 0
    max_dropped_files := 0
    max_dropped_file_path_length := 0
    fullscreen := false
    high_dpi := false
    alpha := false
    enable_clipboard := false
    enable_dragndrop := false }

/-- Embedding of the READ_INT_PROP macro (imgui-runtime.cpp lines
350-356): apply the saturating conversion only when the property exists
and is a number, else keep the current field value. -/
def READ_INT_PROP (prop : Option JSValue) (cur : ℤ) (default_val : ℤ) :
    ℤ :=
  match prop with
  | some (.number v) => safe_double_to_int v default_val
  | _ => cur

/-- Embedding of the READ_BOOL_PROP macro (imgui-runtime.cpp lines
358-364): apply only when the property exists and is a boolean. -/
def READ_BOOL_PROP (prop : Option JSValue) (cur : Bool) : Bool :=
  match prop with
  | some (.boolean b) => b
  | _ => cur

/-- Embedding of populate_sapp_desc_from_config (imgui-runtime.cpp lines
331-398): absent sappConfig leaves pure defaults; otherwise each field is
projected independently from the config object. -/
def populate_sapp_desc_from_config (sappConfig : Option SappConfigJS) :
    SappDesc :=
  match sappConfig with
  | none => defaultSappDesc
  | some config =>
    { window_title :=
        match config.title with
        | some (.string s) => s
        | _ => defaultSappDesc.window_title
      width := READ_INT_PROP config.width defaultSappDesc.width 0
      height := READ_INT_PROP config.height defaultSappDesc.height 0
      sample_count :=
        READ_INT_PROP config.sample_count defaultSappDesc.sample_count 1
      swap_interval :=
        READ_INT_PROP config.swap_interval defaultSappDesc.swap_interval 1
      clipboard_size :=
        READ_INT_PROP config.clipboard_size defaultSappDesc.clipboard_size
          8192
      max_dropped_files :=
        READ_INT_PROP config.max_dropped_files
          defaultSappDesc.max_dropped_files 1
      max_dropped_file_path_length :=
        READ_INT_PROP config.max_dropped_file_path_length
          defaultSappDesc.max_dropped_file_path_length 2048
      fullscreen := READ_BOOL_PROP config.fullscreen defaultSappDesc.fullscreen
      high_dpi := READ_BOOL_PROP config.high_dpi defaultSappDesc.high_dpi
      alpha := READ_BOOL_PROP config.alpha defaultSappDesc.alpha
      enable_clipboard :=
        READ_BOOL_PROP config.enable_clipboard
          defaultSappDesc.enable_clipboard
      enable_dragndrop :=
        READ_BOOL_PROP config.enable_dragndrop
          defaultSappDesc.enable_dragndrop }

/-- C5: during config projection every numeric field is applied only when
the VM value is a number (anything else keeps the zero-initialized
default); a non-finite number yields the caller-supplied default; a
finite number above the native int range clamps to INT_MAX and below it
to INT_MIN; and every boolean field is applied only when the VM value is
a boolean (anything else, e.g. a number, keeps the default). -/
theorem C5_config_projection (cfg : SappConfigJS) (d : ℤ) (q : ℚ) :
    safe_double_to_int .nan d = d ∧
    safe_double_to_int .posInf d = d ∧
    safe_double_to_int .negInf d = d ∧
    ((INT_MAX : ℚ) < q → safe_double_to_int (.finite q) d = INT_MAX) ∧
    (q < (INT_MIN : ℚ) → safe_double_to_int (.finite q) d = INT_MIN) ∧
    (populate_sapp_desc_from_config (some cfg)).width =
      (match cfg.width with
       | some (JSValue.number v) => safe_double_to_int v 0
       | _ => 0) ∧
    (populate_sapp_desc_from_config (some cfg)).height =
      (match cfg.height with
       | some (JSValue.number v) => safe_double_to_int v 0
       | _ => 0) ∧
    (populate_sapp_desc_from_config (some cfg)).sample_count =
      (match cfg.sample_count with
       | some (JSValue.number v) => safe_double_to_int v 1
       | _ => 0) ∧
    (populate_sapp_desc_from_config (some cfg)).swap_interval =
      (match cfg.swap_interval with
       | some (JSValue.number v) => safe_double_to_int v 1
       | _ => 0) ∧
    (populate_sapp_desc_from_config (some cfg)).clipboard_size =
      (match cfg.clipboard_size with
       | some (JSValue.number v) => safe_double_to_int v 8192
       | _ => 0) ∧
    (populate_sapp_desc_from_config (some cfg)).max_dropped_files =
      (match cfg.max_dropped_files with
       | some (JSValue.number v) => safe_double_to_int v 1
       | _ => 0) ∧
    (populate_sapp_desc_from_config (some cfg)).max_dropped_file_path_length =
      (match cfg.max_dropped_file_path_length with
       | some (JSValue.number v) => safe_double_to_int v 2048
       | _ => 0) ∧
    (populate_sapp_desc_from_config (some cfg)).fullscreen =
      (match cfg.fullscreen with
       | some (JSValue.boolean b) => b
       | _ => false) ∧
    (populate_sapp_desc_from_config (some cfg)).high_dpi =
      (match cfg.high_dpi with
       | some (JSValue.boolean b) => b
       | _ => false) ∧
    (populate_sapp_desc_from_config (some cfg)).alpha =
      (match cfg.alpha with
       | some (JSValue.boolean b) => b
       | _ => false) ∧
    (populate_sapp_desc_from_config (some cfg)).enable_clipboard =
      (match cfg.enable_clipboard with
       | some (JSValue.boolean b) => b
       | _ => false) ∧
    (populate_sapp_desc_from_config (some cfg)).enable_dragndrop =
      (match cfg.enable_dragndrop with
       | some (JSValue.boolean b) => b
       | _ => false) := by
  have hlt : ((INT_MIN : ℤ) : ℚ) < ((INT_MAX : ℤ) : ℚ) := by
    norm_num [INT_MIN, INT_MAX]
  refine ⟨rfl, rfl, rfl, ?_, ?_, rfl, rfl, rfl, rfl, rfl, rfl, rfl, rfl,
    rfl, rfl, rfl, rfl⟩
  · intro h
    simp only [safe_double_to_int]
    rw [if_pos h]
  · intro h
    have hnot : ¬ (INT_MAX : ℚ) < q := by linarith
    simp only [safe_double_to_int]
    rw [if_neg hnot, if_pos h]

/-- A sappConfig exercising the projection edge cases: NaN width, a
boolean where a number is expected and a number where a boolean is
expected. -/
def edgeCaseConfig : SappConfigJS :=
  { width := some (.number .nan)
    height := some (.boolean true)
    sample_count := some (.number (.finite 4))
    fullscreen := some (.number (.finite 1)) }

/-- Witness for C5: the clamping conjuncts applied at concrete
out-of-range rationals, on a concrete config. -/
theorem C5_config_projection_witness :
    ((INT_MAX : ℚ) < 3000000000 ∧
      safe_double_to_int (.finite 3000000000) 7 = INT_MAX) ∧
    ((-3000000000 : ℚ) < (INT_MIN : ℚ) ∧
      safe_double_to_int (.finite (-3000000000)) 7 = INT_MIN) ∧
    (populate_sapp_desc_from_config (some edgeCaseConfig)).width = 0 ∧
    (populate_sapp_desc_from_config (some edgeCaseConfig)).height = 0 ∧
    (populate_sapp_desc_from_config (some edgeCaseConfig)).fullscreen =
      false := by
  have h1 : (INT_MAX : ℚ) < 3000000000 := by norm_num [INT_MAX]
  have h2 : (-3000000000 : ℚ) < (INT_MIN : ℚ) := by norm_num [INT_MIN]
  refine ⟨⟨h1, (C5_config_projection edgeCaseConfig 7 3000000000).2.2.2.1 h1⟩,
    ⟨h2, (C5_config_projection edgeCaseConfig 7 (-3000000000)).2.2.2.2.1 h2⟩,
    rfl, rfl, rfl⟩

/-! ## Script unit loading (imgui_load_unit; imgui-runtime.cpp lines
491-531)

The loader evaluates an optional native unit, then loads the JS unit
either as bytecode (mapped without a trailing zero) or as source (mapped
with a trailing zero, plus an optional sibling source map at
path + ".map"); only the source-map mapping failure is caught, logged
and suppressed.
-/

/-- The fallible collaborators of imgui_load_unit: file mapping by path
(returning an opaque buffer handle) and the three evaluation entry
points of the VM. -/
structure LoadEnv where
  mapFile : String → Bool → Except JSError ℕ
  evalNative : Except JSError Unit
  evalJS : ℕ → Except JSError Unit
  evalJSWithMap : ℕ → ℕ → Except JSError Unit

structure LoadResult where
  logs : List String
  hasSourceMap : Bool
deriving DecidableEq

/-- Embedding of imgui_load_unit (imgui-runtime.cpp lines 491-531). The
try/catch around the source-map mapping is the only suppressed failure;
every other mapping or evaluation error propagates. -/
def imgui_load_unit (env : LoadEnv) (hasNativeUnit : Bool)
    (bytecode : Bool) (jsPath : Option String) :
    Except JSError LoadResult :=
  let step1 : Except JSError (List String) :=
    if hasNativeUnit then
      match env.evalNative with
      | .error e => .error e
      | .ok _ => .ok ["Native unit loaded."]
    else .ok []
  match step1 with
  | .error e => .error e
  | .ok logs0 =>
    match jsPath, bytecode with
    | some path, true =>
      match env.mapFile path false with
      | .error e => .error e
      | .ok buf =>
        match env.evalJS buf with
        | .error e => .error e
        | .ok _ =>
          .ok ⟨logs0 ++
              ["Loading React unit from bytecode: " ++ path,
               "React unit loaded (bytecode)."], false⟩
    | some path, false =>
      match env.mapFile path true with
      | .error e => .error e
      | .ok buf =>
        match env.mapFile (path ++ ".map") true with
        | .ok mapBuf =>
          match env.evalJSWithMap buf mapBuf with
          | .error e => .error e
          | .ok _ =>
            .ok ⟨logs0 ++
                ["Loading React unit from source: " ++ path,
                 "Loaded source map: " ++ (path ++ ".map"),
                 "React unit loaded (source)."], true⟩
        | .error e =>
          match env.evalJS buf with
          | .error e2 => .error e2
          | .ok _ =>
            .ok ⟨logs0 ++
                ["Loading React unit from source: " ++ path,
                 "Source map not found: " ++ e.message,
                 "React unit loaded (source)."], false⟩
    | none, _ => .ok ⟨logs0, false⟩

/-- C7: in source mode, after the source file maps successfully the
loader tries the sibling path + ".map" file; if that mapping fails the
failure is suppressed, a log line notes the absence and the unit still
evaluates successfully without a source map; when the sibling maps, the
unit evaluates with it; and only that source-map mapping failure is
suppressed -- a failure mapping the source file itself, or any
evaluation error, propagates. -/
theorem C7_source_map_optional (env : LoadEnv) (path : String)
    (buf mapBuf : ℕ) (e : JSError) :
    (env.mapFile path true = .ok buf →
      env.mapFile (path ++ ".map") true = .error e →
      env.evalJS buf = .ok () →
      imgui_load_unit env false false (some path) =
        .ok ⟨["Loading React unit from source: " ++ path,
              "Source map not found: " ++ e.message,
              "React unit loaded (source)."], false⟩) ∧
    (env.mapFile path true = .ok buf →
      env.mapFile (path ++ ".map") true = .ok mapBuf →
      env.evalJSWithMap buf mapBuf = .ok () →
      imgui_load_unit env false false (some path) =
        .ok ⟨["Loading React unit from source: " ++ path,
              "Loaded source map: " ++ (path ++ ".map"),
              "React unit loaded (source)."], true⟩) ∧
    (env.mapFile path true = .error e →
      imgui_load_unit env false false (some path) = .error e) ∧
    (∀ e2, env.mapFile path true = .ok buf →
      env.mapFile (path ++ ".map") true = .error e →
      env.evalJS buf = .error e2 →
      imgui_load_unit env false false (some path) = .error e2) ∧
    (∀ e2, env.mapFile path true = .ok buf →
      env.mapFile (path ++ ".map") true = .ok mapBuf →
      env.evalJSWithMap buf mapBuf = .error e2 →
      imgui_load_unit env false false (some path) = .error e2) := by
  refine ⟨?_, ?_, ?_, ?_, ?_⟩
  · intro h1 h2 h3
    simp only [imgui_load_unit, h1, h2, h3]
    rfl
  · intro h1 h2 h3
    simp only [imgui_load_unit, h1, h2, h3]
    rfl
  · intro h1
    simp only [imgui_load_unit, h1]
    rfl
  · intro e2 h1 h2 h3
    simp only [imgui_load_unit, h1, h2, h3]
    rfl
  · intro e2 h1 h2 h3
    simp only [imgui_load_unit, h1, h2, h3]
    rfl

/-- A load environment where only the source file bundle.js exists, every
evaluation succeeds, and any other path fails to open. -/
def sourceOnlyLoadEnv : LoadEnv :=
  { mapFile := fun p _ =>
      if p = "bundle.js" then .ok 11
      else .error ⟨String.append "Failed to open: " p⟩
    evalNative := .ok ()
    evalJS := fun _ => .ok ()
    evalJSWithMap := fun _ _ => .ok () }

/-- Witness for C7: the source file exists, its .map sibling does not;
the unit loads successfully without a source map and the log notes the
absence. -/
theorem C7_source_map_optional_witness :
    imgui_load_unit sourceOnlyLoadEnv false false (some "bundle.js") =
      .ok ⟨["Loading React unit from source: bundle.js",
            "Source map not found: Failed to open: bundle.js.map",
            "React unit loaded (source)."], false⟩ := by
  have h := (C7_source_map_optional sourceOnlyLoadEnv "bundle.js" 11 0
      ⟨"Failed to open: bundle.js.map"⟩).1 (by rfl) (by rfl) (by rfl)
  exact h

/-! ## FPS and displayed-metric flushing (app_frame; imgui-runtime.cpp
lines 101-112, 232-250)

app_frame starts by reading the monotonic clock; on the very first tick
it only initializes s_start_time and s_last_fps_time, and on later ticks
it refreshes s_fps and the three displayed metric snapshots only when
more than one second (in stm nanosecond ticks) has elapsed since the
last flush.
-/

/-- The static frame-clock state (s_started, s_start_time,
s_last_fps_time, s_fps and the three displayed metric values). Times are
stm tick counts in nanoseconds. -/
structure FrameClockState where
  s_started : Bool
  s_start_time : ℕ
  s_last_fps_time : ℕ
  s_fps : ℚ
  s_imgui_avg_ms_display : ℚ
  s_react_avg_ms_display : ℚ
  s_react_max_ms_display : ℚ
deriving DecidableEq

/-- Embedding of the FPS / displayed-metrics block at the top of
app_frame (imgui-runtime.cpp lines 236-250). now is stm_now();
frameDuration is sapp_frame_duration(); the accumulated metrics come
from the PerfState updated by update_performance_metrics. The clock is
monotonic, so stm_diff(now, s_last_fps_time) is Nat subtraction. -/
def app_frame_fps_update (s : FrameClockState) (now : ℕ)
    (frameDuration : ℚ) (perf : PerfState) : FrameClockState :=
  if s.s_started = false then
    { s with s_started := true, s_start_time := now, s_last_fps_time := now }
  else if 1000000000 < now - s.s_last_fps_time then
    { s with
      s_fps := 1 / frameDuration
      s_imgui_avg_ms_display := perf.imgui_avg_ms
      s_react_avg_ms_display := perf.react_avg_ms
      s_react_max_ms_display := perf.react_max_ms
      s_last_fps_time := now }
  else s

/-- C9: the displayed FPS and displayed performance-metric fields never
change on the very first tick (which only initializes the timers), stay
unchanged on any tick where at most one second has elapsed since the last
flush regardless of the frame duration, and any change to them implies
the state was already started and at least one second of monotonic time
had elapsed since the last flush. -/
theorem C9_display_update_gating (s : FrameClockState) (now : ℕ)
    (frameDuration : ℚ) (perf : PerfState) :
    (s.s_started = false →
      (app_frame_fps_update s now frameDuration perf).s_fps = s.s_fps ∧
      (app_frame_fps_update s now frameDuration perf).s_imgui_avg_ms_display =
        s.s_imgui_avg_ms_display ∧
      (app_frame_fps_update s now frameDuration perf).s_react_avg_ms_display =
        s.s_react_avg_ms_display ∧
      (app_frame_fps_update s now frameDuration perf).s_react_max_ms_display =
        s.s_react_max_ms_display) ∧
    (s.s_started = true → now - s.s_last_fps_time ≤ 1000000000 →
      app_frame_fps_update s now frameDuration perf = s) ∧
    (((app_frame_fps_update s now frameDuration perf).s_fps ≠ s.s_fps ∨
      (app_frame_fps_update s now frameDuration perf).s_imgui_avg_ms_display ≠
        s.s_imgui_avg_ms_display ∨
      (app_frame_fps_update s now frameDuration perf).s_react_avg_ms_display ≠
        s.s_react_avg_ms_display ∨
      (app_frame_fps_update s now frameDuration perf).s_react_max_ms_display ≠
        s.s_react_max_ms_display) →
      s.s_started = true ∧ 1000000000 ≤ now - s.s_last_fps_time) := by
  refine ⟨?_, ?_, ?_⟩
  · intro h
    simp [app_frame_fps_update, h]
  · intro hst hle
    have hnd : ¬ (1000000000 < now - s.s_last_fps_time) := by omega
    simp [app_frame_fps_update, hst, hnd]
  · intro h
    cases hst : s.s_started with
    | false =>
      exfalso
      simp [app_frame_fps_update, hst] at h
    | true =>
      by_cases hd : 1000000000 < now - s.s_last_fps_time
      · exact ⟨rfl, by omega⟩
      · exfalso
        simp [app_frame_fps_update, hst, hd] at h

/-- A frame-clock state before the first tick. -/
def freshClockState : FrameClockState := ⟨false, 0, 0, 0, 0, 0, 0⟩

/-- A started frame-clock state whose last flush was at tick 0. -/
def startedClockState : FrameClockState := ⟨true, 0, 0, 3, 4, 5, 6⟩

/-- Witness for C9: the first tick leaves the displayed fields alone, a
tick 0.5 s after the last flush changes nothing, and a tick 2 s after the
last flush that does change the displayed FPS implies at least one
second had elapsed. -/
theorem C9_display_update_gating_witness :
    ((app_frame_fps_update freshClockState 5 1 ⟨1, 2, 3⟩).s_fps =
        freshClockState.s_fps ∧
      (app_frame_fps_update freshClockState 5 1
            ⟨1, 2, 3⟩).s_imgui_avg_ms_display =
        freshClockState.s_imgui_avg_ms_display ∧
      (app_frame_fps_update freshClockState 5 1
            ⟨1, 2, 3⟩).s_react_avg_ms_display =
        freshClockState.s_react_avg_ms_display ∧
      (app_frame_fps_update freshClockState 5 1
            ⟨1, 2, 3⟩).s_react_max_ms_display =
        freshClockState.s_react_max_ms_display) ∧
    app_frame_fps_update startedClockState 500000000 1 ⟨1, 2, 3⟩ =
      startedClockState ∧
    (startedClockState.s_started = true ∧
      1000000000 ≤ 2000000000 - startedClockState.s_last_fps_time) := by
  refine ⟨(C9_display_update_gating freshClockState 5 1 ⟨1, 2, 3⟩).1
      (by decide),
    (C9_display_update_gating startedClockState 500000000 1 ⟨1, 2, 3⟩).2.1
      (by decide) (by decide),
    (C9_display_update_gating startedClockState 2000000000 1
        ⟨1, 2, 3⟩).2.2 (Or.inr (Or.inl (by
          norm_num [app_frame_fps_update, startedClockState])))⟩

/-! ## Image registry accessors (image_width, image_height,
image_simgui_image; imgui-runtime.cpp lines 115-142)

Each accessor rejects an index that is negative or not below the number
of loaded images: it logs an error and returns 0 (or a null pointer);
otherwise it reads the stored image. None of them mutates s_images.
-/

/-- A loaded image: pixel width and height and the toolkit-side image
handle (the simgui_image_t, modelled as an opaque handle id). -/
structure Image where
  w_ : ℤ
  h_ : ℤ
  simguiImage_ : ℕ
deriving DecidableEq

/-- Embedding of image_width (imgui-runtime.cpp lines 119-126). Returns
the result, the emitted log lines and the registry after the call. -/
def image_width (s_images : List Image) (index : ℤ) :
    ℤ × List String × List Image :=
  if index < 0 ∨ (s_images.length : ℤ) ≤ index then
    (0, ["Invalid image index"], s_images)
  else
    (((s_images[index.toNat]?).map Image.w_).getD 0, [], s_images)

/-- Embedding of image_height (imgui-runtime.cpp lines 127-134). -/
def image_height (s_images : List Image) (index : ℤ) :
    ℤ × List String × List Image :=
  if index < 0 ∨ (s_images.length : ℤ) ≤ index then
    (0, ["Invalid image index"], s_images)
  else
    (((s_images[index.toNat]?).map Image.h_).getD 0, [], s_images)

/-- Embedding of image_simgui_image (imgui-runtime.cpp lines 135-142);
the null pointer returned on a bad index is modelled as none. -/
def image_simgui_image (s_images : List Image) (index : ℤ) :
    Option ℕ × List String × List Image :=
  if index < 0 ∨ (s_images.length : ℤ) ≤ index then
    (none, ["Invalid image index"], s_images)
  else
    ((s_images[index.toNat]?).map Image.simguiImage_, [], s_images)

/-- C10: for every index that is negative or at least the number of
loaded images, image_width and image_height return 0 and
image_simgui_image returns a null pointer, each after logging an error
and without modifying the image registry; for an in-range index each
returns the stored width, height or toolkit handle of that image,
again leaving the registry unchanged. -/
theorem C10_image_accessor_bounds (s_images : List Image) (index : ℤ)
    (i : ℕ) (hi : i < s_images.length) :
    (index < 0 ∨ (s_images.length : ℤ) ≤ index →
      image_width s_images index = (0, ["Invalid image index"], s_images) ∧
      image_height s_images index = (0, ["Invalid image index"], s_images) ∧
      image_simgui_image s_images index =
        (none, ["Invalid image index"], s_images)) ∧
    (image_width s_images (i : ℤ) = (s_images[i].w_, [], s_images) ∧
      image_height s_images (i : ℤ) = (s_images[i].h_, [], s_images) ∧
      image_simgui_image s_images (i : ℤ) =
        (some s_images[i].simguiImage_, [], s_images)) := by
  have hcond : ¬ ((i : ℤ) < 0 ∨ (s_images.length : ℤ) ≤ (i : ℤ)) := by
    push_neg
    constructor
    · omega
    · exact_mod_cast hi
  have htn : (i : ℤ).toNat = i := Int.toNat_natCast i
  have hget : s_images[(i : ℤ).toNat]? = some s_images[i] := by
    rw [htn]
    exact List.getElem?_eq_getElem hi
  refine ⟨?_, ?_, ?_, ?_⟩
  · intro h
    refine ⟨?_, ?_, ?_⟩ <;> simp [image_width, image_height,
      image_simgui_image, if_pos h]
  · rw [image_width, if_neg hcond, hget]
    rfl
  · rw [image_height, if_neg hcond, hget]
    rfl
  · rw [image_simgui_image, if_neg hcond, hget]
    rfl

/-- A single-image registry used by the C10 witness. -/
def witnessImages : List Image := [⟨10, 20, 30⟩]

/-- Witness for C10: index 5 is out of range for a one-image registry
(0 and a logged error, registry untouched), and index 0 reads the stored
image. -/
theorem C10_image_accessor_bounds_witness :
    (image_width witnessImages 5 = (0, ["Invalid image index"],
        witnessImages) ∧
      image_height witnessImages 5 = (0, ["Invalid image index"],
        witnessImages) ∧
      image_simgui_image witnessImages 5 = (none, ["Invalid image index"],
        witnessImages)) ∧
    (image_width witnessImages 0 = (10, [], witnessImages) ∧
      image_height witnessImages 0 = (20, [], witnessImages) ∧
      image_simgui_image witnessImages 0 = (some 30, [], witnessImages)) :=
  ⟨(C10_image_accessor_bounds witnessImages 5 0 (by decide)).1 (by decide),
    (C10_image_accessor_bounds witnessImages 5 0 (by decide)).2⟩

end Imgui
